import Mathlib

/-!
Shallow embedding of the transaction-posting path of `src/handler.rs`
(the `maggie` service). The handler validates the request payload
(description, kind), derives a signed amount, then performs a locked
read-modify-write against the `accounts` table and appends a row to
`transactions`. Machine integers (`i64` in the source) are modelled as
`Int` with explicit two's-complement reduction where Rust release-mode
arithmetic wraps.
-/

namespace Maggie

/-- 2^63, the magnitude of the i64 sign bound. -/
def twoPow63 : Int := 9223372036854775808

/-- 2^64, the i64 wrap-around modulus. -/
def twoPow64 : Int := 18446744073709551616

/-- A value representable as a 64-bit signed integer. -/
def isI64 (x : Int) : Prop := -twoPow63 ≤ x ∧ x < twoPow63

instance (x : Int) : Decidable (isI64 x) := by
  unfold isI64; infer_instance

/-- Two's-complement reduction of an integer into the i64 range,
the semantics of Rust release-mode (wrapping) i64 arithmetic. -/
def wrap64 (x : Int) : Int := (x + twoPow63) % twoPow64 - twoPow63

/-- Request payload (`struct Payload`, handler.rs:12-17): `valor` is an
`i64`, `tipo` a string, `descricao` an optional string. -/
structure Payload where
  valor : Int
  tipo : String
  descricao : Option String
deriving DecidableEq, Repr

/-- Account view returned by the locking read and by the handler
(`struct Conta`, handler.rs:19-23): `saldo` = balance, `limite` = credit. -/
structure Conta where
  saldo : Int
  limite : Int
deriving DecidableEq, Repr

/-- A row of the `transactions` table as written by the INSERT at
handler.rs:174-175. -/
structure TxRecord where
  account_id : Int
  amount : Int
  transaction_type : String
  details : String
deriving DecidableEq, Repr

/-- The relational store the handler runs against: the `accounts` table
(id, balance, credit) and the `transactions` table, newest row first. -/
structure Store where
  accounts : List (Int × Conta)
  transactions : List TxRecord
deriving DecidableEq, Repr

/-- The `SELECT ... FROM accounts WHERE id=$1 FOR UPDATE` read
(handler.rs:55-62, 153-161): first row with the given id, if any. -/
def findConta (accounts : List (Int × Conta)) (id : Int) : Option Conta :=
  (accounts.find? (fun row => row.1 == id)).map (fun row => row.2)

/-- The `UPDATE accounts SET balance=$1 WHERE id=$2` write
(handler.rs:172): every row with the given id gets the new balance. -/
def setBalance (accounts : List (Int × Conta)) (id : Int) (b : Int) :
    List (Int × Conta) :=
  accounts.map (fun row =>
    if row.1 == id then (row.1, { row.2 with saldo := b }) else row)

/-- The `descricao` validation (handler.rs:133-141): a missing
description is rejected with body `descricao nulo`; an empty one, or one
whose Rust byte length (`.len()`) exceeds 10, is rejected with body
`descricao vazio ou maior que 10`. -/
def checkDescricao (d? : Option String) : Except String String :=
  match d? with
  | none => .error "descricao nulo"
  | some d =>
    if d.utf8ByteSize = 0 ∨ 10 < d.utf8ByteSize then
      .error "descricao vazio ou maior que 10"
    else
      .ok d

/-- The signed movement derived from `tipo` (handler.rs:142-148):
`"c"` keeps `valor`, `"d"` computes `valor * -1` (wrapping i64
negation), any other string is rejected. -/
def signedAmount (tipo : String) (valor : Int) : Option Int :=
  if tipo = "c" then some valor
  else if tipo = "d" then some (wrap64 (valor * -1))
  else none

/-- Outcome of one `post_transaction` call, before the HTTP boundary:
success carries the committed store and the response body `Conta`;
the three failure shapes are the direct 422 validation responses
(handler.rs:136, 140, 146), the `Err(404)` of a missing account row
(handler.rs:163) and the `Err(422)` of a failed invariant check
(handler.rs:170). -/
inductive PostResult where
  | ok (s : Store) (c : Conta)
  | validationError (msg : String)
  | notFound
  | invariantViolation
deriving DecidableEq, Repr

/-- True on the direct validation failures of handler.rs:133-148. -/
def isValidationError : PostResult → Bool
  | .validationError _ => true
  | _ => false

/-- The candidate balance `let saldo = saldo + valor` (handler.rs:168),
a wrapping i64 addition. -/
def newSaldo (saldo valor : Int) : Int := wrap64 (saldo + valor)

/-- The transaction-posting path of `post_transaction`
(handler.rs:126-178): validate `descricao`, derive the signed amount
from `tipo`, lock-read the account row, compute the candidate balance,
check `(saldo + limite) < 0` (wrapping i64 addition), and on success
write the new balance, insert a `transactions` row carrying the RAW
`payload.valor` and `payload.tipo` (handler.rs:174-175), and return
`Conta { saldo, limite }`. -/
def post (s : Store) (id : Int) (p : Payload) : PostResult :=
  match checkDescricao p.descricao with
  | .error m => .validationError m
  | .ok descricao =>
    match signedAmount p.tipo p.valor with
    | none => .validationError "Error"
    | some valor =>
      match findConta s.accounts id with
      | none => .notFound
      | some conta =>
        if wrap64 (newSaldo conta.saldo valor + conta.limite) < 0 then
          .invariantViolation
        else
          .ok { accounts := setBalance s.accounts id (newSaldo conta.saldo valor),
                transactions :=
                  { account_id := id, amount := p.valor,
                    transaction_type := p.tipo, details := descricao }
                    :: s.transactions }
              { saldo := newSaldo conta.saldo valor, limite := conta.limite }

/-- The store state after a call: the committed store on success,
the unchanged store otherwise (the database transaction is dropped
without commit on every early return of handler.rs:162-171). -/
def postState (s : Store) (id : Int) (p : Payload) : Store :=
  match post s id p with
  | .ok s' _ => s'
  | _ => s

/-- The error-decoding boundary of handler.rs:181-188: the stringified
error is matched against `"404"`, which maps to HTTP 404 (NotFound);
every other error string maps to HTTP 422 (UnprocessableEntity). -/
def mapErr (errStr : String) : Nat :=
  match errStr with
  | "404" => 404
  | _ => 422

/-- Result of the `web::block` closure as seen by the boundary code
(handler.rs:150-188): a successful `Conta`, a sentinel error code
(`Err(404)` / `Err(422)`), or a cancelled worker — the shape produced
when a store operation fails and its `.unwrap()` panics inside the
blocking closure. -/
inductive BlockResult where
  | ok (c : Conta)
  | err (code : Nat)
  | canceled (msg : String)
deriving DecidableEq, Repr

/-- HTTP status produced by handler.rs:180-188 for each block result:
200 on success, otherwise the stringified error through `mapErr`. A
cancelled worker carries the cancellation message of the blocking
channel, never the string `"404"`. -/
def surface : BlockResult → Nat
  | .ok _ => 200
  | .err code => mapErr (toString code)
  | .canceled msg => mapErr msg

-- scratch checks
example : post { accounts := [(1, ⟨0, 1000⟩)], transactions := [] } 1
    ⟨100, "c", some "x"⟩ =
    .ok { accounts := [(1, ⟨100, 1000⟩)],
          transactions := [⟨1, 100, "c", "x"⟩] } ⟨100, 1000⟩ := by decide

example : post { accounts := [(1, ⟨0, 1000⟩)], transactions := [] } 1
    ⟨5, "d", some "x"⟩ =
    .ok { accounts := [(1, ⟨-5, 1000⟩)],
          transactions := [⟨1, 5, "d", "x"⟩] } ⟨-5, 1000⟩ := by decide

example : post { accounts := [(1, ⟨0, 1000⟩)], transactions := [] } 1
    ⟨1001, "d", some "x"⟩ = .invariantViolation := by decide

example : post { accounts := [(1, ⟨0, 1000⟩)], transactions := [] } 2
    ⟨5, "d", some "x"⟩ = .notFound := by decide

example : post { accounts := [(1, ⟨0, 1000⟩)], transactions := [] } 1
    ⟨0, "c", some "x"⟩ =
    .ok { accounts := [(1, ⟨0, 1000⟩)],
          transactions := [⟨1, 0, "c", "x"⟩] } ⟨0, 1000⟩ := by decide

example : isValidationError (post { accounts := [(1, ⟨0, 1000⟩)],
                                    transactions := [] }
    1 ⟨5, "c", some "ééééééé"⟩) = true := by decide

example : ("ééééééé" : String).length = 7 := by decide

example : ("ééééééé" : String).utf8ByteSize = 14 := by decide

/-! ### Arithmetic facts about the two's-complement reduction -/

lemma wrap64_isI64 (x : Int) : isI64 (wrap64 x) := by
  unfold wrap64 isI64 twoPow63 twoPow64
  omega

lemma wrap64_eq_self {x : Int} (h : isI64 x) : wrap64 x = x := by
  unfold wrap64 isI64 twoPow63 twoPow64 at *
  omega

lemma wrap64_ne_self {x : Int} (h : ¬ isI64 x) : wrap64 x ≠ x := by
  intro he
  exact h (he ▸ wrap64_isI64 x)

/-- When the credit limit is a non-negative i64 and the new balance is an
i64, a non-negative wrapped sum implies the exact sum is non-negative:
upward overflow of `saldo + limite` always wraps to a negative value, so
the handler's check `(saldo + limite) < 0` accepts only exact
non-negative sums. -/
lemma invariant_check_exact {b l : Int} (hb : isI64 b) (h0 : 0 ≤ l)
    (hl : l < twoPow63) (hchk : ¬ wrap64 (b + l) < 0) : 0 ≤ b + l := by
  unfold wrap64 isI64 twoPow63 twoPow64 at *
  omega

/-! ### Inversion lemmas for the posting path -/

lemma checkDescricao_ok_inv {d? : Option String} {d : String}
    (h : checkDescricao d? = .ok d) :
    d? = some d ∧ ¬ (d.utf8ByteSize = 0 ∨ 10 < d.utf8ByteSize) := by
  cases d? with
  | none => simp [checkDescricao] at h
  | some d0 =>
    unfold checkDescricao at h
    dsimp only at h
    by_cases hlen : d0.utf8ByteSize = 0 ∨ 10 < d0.utf8ByteSize
    · rw [if_pos hlen] at h
      exact Except.noConfusion h
    · rw [if_neg hlen] at h
      injection h with h'
      subst h'
      exact ⟨rfl, hlen⟩

lemma signedAmount_none {t : String} (hc : t ≠ "c") (hd : t ≠ "d")
    (v : Int) : signedAmount t v = none := by
  unfold signedAmount
  rw [if_neg hc, if_neg hd]

/-- Successful completion of `post` determines every intermediate value:
the description passed validation, the kind produced a signed amount, the
account row was found, the invariant check passed, and the committed
store and response have exactly the shapes written at handler.rs:172-177. -/
lemma post_ok_inv {s : Store} {id : Int} {p : Payload} {s' : Store}
    {c : Conta} (hpost : post s id p = .ok s' c) :
    ∃ d v conta,
      p.descricao = some d ∧
      ¬ (d.utf8ByteSize = 0 ∨ 10 < d.utf8ByteSize) ∧
      signedAmount p.tipo p.valor = some v ∧
      findConta s.accounts id = some conta ∧
      ¬ wrap64 (newSaldo conta.saldo v + conta.limite) < 0 ∧
      s' = { accounts := setBalance s.accounts id (newSaldo conta.saldo v),
             transactions :=
               { account_id := id, amount := p.valor,
                 transaction_type := p.tipo, details := d }
                 :: s.transactions } ∧
      c = { saldo := newSaldo conta.saldo v, limite := conta.limite } := by
  unfold post at hpost
  rcases hcd : checkDescricao p.descricao with m | d
  · rw [hcd] at hpost
    exact PostResult.noConfusion hpost
  · rw [hcd] at hpost
    rcases hsig : signedAmount p.tipo p.valor with _ | v
    · rw [hsig] at hpost
      exact PostResult.noConfusion hpost
    · rw [hsig] at hpost
      rcases hfind : findConta s.accounts id with _ | conta
      · rw [hfind] at hpost
        exact PostResult.noConfusion hpost
      · rw [hfind] at hpost
        dsimp only at hpost
        by_cases hchk : wrap64 (newSaldo conta.saldo v + conta.limite) < 0
        · rw [if_pos hchk] at hpost
          exact PostResult.noConfusion hpost
        · rw [if_neg hchk] at hpost
          obtain ⟨hd, hlen⟩ := checkDescricao_ok_inv hcd
          injection hpost with h1 h2
          exact ⟨d, v, conta, hd, hlen, rfl, rfl, hchk, h1.symm, h2.symm⟩

/-- A missing description short-circuits the post at handler.rs:136. -/
lemma post_descricao_none {s : Store} {id : Int} {p : Payload}
    (h : p.descricao = none) :
    post s id p = .validationError "descricao nulo" := by
  unfold post
  rw [h]
  rfl

/-- An empty or over-long description short-circuits the post at
handler.rs:140. -/
lemma post_descricao_bad {s : Store} {id : Int} {p : Payload} {d : String}
    (h : p.descricao = some d)
    (hlen : d.utf8ByteSize = 0 ∨ 10 < d.utf8ByteSize) :
    post s id p = .validationError "descricao vazio ou maior que 10" := by
  unfold post
  rw [h]
  unfold checkDescricao
  dsimp only
  rw [if_pos hlen]

/-- A kind outside {"c","d"} short-circuits the post at handler.rs:146
once the description has passed validation. -/
lemma post_tipo_error {s : Store} {id : Int} {p : Payload} {d : String}
    (h : p.descricao = some d)
    (hlen : ¬ (d.utf8ByteSize = 0 ∨ 10 < d.utf8ByteSize))
    (hsig : signedAmount p.tipo p.valor = none) :
    post s id p = .validationError "Error" := by
  unfold post
  rw [h]
  unfold checkDescricao
  dsimp only
  rw [if_neg hlen]
  dsimp only
  rw [hsig]

/-- Once the description and kind have passed validation, the outcome of
the post is decided by the store alone and is never a validation
failure. -/
lemma post_not_validation_of_good (s : Store) (id : Int) (p : Payload)
    (d : String) (hd : p.descricao = some d)
    (hlen : ¬ (d.utf8ByteSize = 0 ∨ 10 < d.utf8ByteSize))
    (v : Int) (hsig : signedAmount p.tipo p.valor = some v) :
    isValidationError (post s id p) = false := by
  unfold post
  rw [hd]
  unfold checkDescricao
  dsimp only
  rw [if_neg hlen]
  dsimp only
  rw [hsig]
  rcases hfind : findConta s.accounts id with _ | conta
  · rfl
  · dsimp only
    split <;> rfl

/-! ### Claim theorems -/

/-- C1: for every account whose credit limit is a non-negative i64 and
whose pre-state satisfies `balance + creditLimit >= 0`, the balance
written by a successful `post` satisfies `newBalance + creditLimit >= 0`. -/
theorem post_preserves_invariant (s : Store) (id : Int) (p : Payload)
    (conta : Conta) (s' : Store) (c : Conta)
    (hfind : findConta s.accounts id = some conta)
    (hlim0 : 0 ≤ conta.limite) (hlim : conta.limite < twoPow63)
    (_hpre : 0 ≤ conta.saldo + conta.limite)
    (hpost : post s id p = .ok s' c) :
    0 ≤ c.saldo + c.limite := by
  obtain ⟨d, v, conta', hd, hlen, hsig, hfind', hchk, hs', hc⟩ :=
    post_ok_inv hpost
  rw [hfind] at hfind'
  injection hfind' with he
  subst he
  subst hc
  exact invariant_check_exact (wrap64_isI64 _) hlim0 hlim hchk

/-- Witness for C1 at a concrete post: crediting 100 onto balance 0 with
limit 1000 commits balance 100, and 0 ≤ 100 + 1000. -/
theorem post_preserves_invariant_witness :
    0 ≤ (Conta.mk 100 1000).saldo + (Conta.mk 100 1000).limite :=
  post_preserves_invariant
    { accounts := [(1, ⟨0, 1000⟩)], transactions := [] } 1
    ⟨100, "c", some "x"⟩ ⟨0, 1000⟩
    { accounts := [(1, ⟨100, 1000⟩)],
      transactions := [⟨1, 100, "c", "x"⟩] }
    ⟨100, 1000⟩ (by decide) (by decide) (by decide) (by decide) (by decide)

/-- C4: a post that fails with NotFound (no account row) or with an
invariant violation leaves the store exactly as it was: no transaction
row is created and no balance changes (the database transaction is
dropped without commit). -/
theorem post_failure_no_effect (s : Store) (id : Int) (p : Payload)
    (h : post s id p = .notFound ∨ post s id p = .invariantViolation) :
    postState s id p = s := by
  unfold postState
  rcases h with h | h <;> rw [h]

/-- Witness for C4 at the spec's scenario: balance -1000, limit 1000,
a further debit of 1 is an invariant violation and the store is
unchanged. -/
theorem post_failure_no_effect_witness :
    postState { accounts := [(1, ⟨-1000, 1000⟩)], transactions := [] } 1
      ⟨1, "d", some "x"⟩ =
    { accounts := [(1, ⟨-1000, 1000⟩)], transactions := [] } :=
  post_failure_no_effect _ _ _ (Or.inr (by decide))

/-- C5: for a successful post whose signed amount and candidate sum fit
in i64, the candidate balance is exactly `balance + signedAmount` with
`signedAmount = +valor` for kind `"c"` and `-valor` for kind `"d"`, and
the response is `{balance: candidate, creditLimit}`. -/
theorem post_candidate_exact (s : Store) (id : Int) (p : Payload)
    (conta : Conta) (s' : Store) (c : Conta)
    (htipo : p.tipo = "c" ∨ p.tipo = "d")
    (hfind : findConta s.accounts id = some conta)
    (hsigned : isI64 (if p.tipo = "c" then p.valor else -p.valor))
    (hsum : isI64 (conta.saldo + (if p.tipo = "c" then p.valor else -p.valor)))
    (hpost : post s id p = .ok s' c) :
    c.saldo = conta.saldo + (if p.tipo = "c" then p.valor else -p.valor) ∧
    c.limite = conta.limite := by
  obtain ⟨d, v, conta', hd, hlen, hsig, hfind', hchk, hs', hc⟩ :=
    post_ok_inv hpost
  rw [hfind] at hfind'
  injection hfind' with he
  subst he
  have hv : v = (if p.tipo = "c" then p.valor else -p.valor) := by
    rcases htipo with ht | ht
    · rw [ht] at hsig
      rw [if_pos ht]
      simp [signedAmount] at hsig
      omega
    · have hne : p.tipo ≠ "c" := by rw [ht]; decide
      rw [ht] at hsig
      rw [if_neg hne]
      rw [if_neg hne] at hsigned
      have : ("d" : String) ≠ "c" := by decide
      simp [signedAmount, this] at hsig
      rw [← hsig]
      exact wrap64_eq_self hsigned
  subst hc
  refine ⟨?_, rfl⟩
  show newSaldo conta.saldo v = _
  rw [hv]
  unfold newSaldo
  exact wrap64_eq_self hsum

/-- Witness for C5 at a concrete debit: debiting 5 from balance 0 with
limit 1000 answers balance -5 = 0 + (-5) and the account's limit. -/
theorem post_candidate_exact_witness :
    (Conta.mk (-5) 1000).saldo =
      (Conta.mk 0 1000).saldo +
        (if ("d" : String) = "c" then (5 : Int) else -(5 : Int)) ∧
    (Conta.mk (-5) 1000).limite = (Conta.mk 0 1000).limite :=
  post_candidate_exact
    { accounts := [(1, ⟨0, 1000⟩)], transactions := [] } 1
    ⟨5, "d", some "x"⟩ ⟨0, 1000⟩
    { accounts := [(1, ⟨-5, 1000⟩)], transactions := [⟨1, 5, "d", "x"⟩] }
    ⟨-5, 1000⟩ (Or.inr rfl) (by decide) (by decide) (by decide) (by decide)

/-- C3 counterexample: a successful debit of 5 appends a transaction row
whose stored amount is the raw magnitude 5, not the negated magnitude
-5 required by the claim (handler.rs:174-175 inserts `payload.valor`). -/
theorem post_debit_raw_amount_cx :
    (postState { accounts := [(1, ⟨0, 1000⟩)], transactions := [] } 1
        ⟨5, "d", some "x"⟩).transactions =
      [{ account_id := 1, amount := 5, transaction_type := "d",
         details := "x" }] ∧
    (5 : Int) ≠ -5 := by decide

/-- C3 amended: every successful post appends exactly one transaction
row, and the amount it stores is the raw `valor` of the payload — for
debits as well as credits; the direction is recorded only in the stored
kind field. -/
theorem post_transaction_row_raw (s : Store) (id : Int) (p : Payload)
    (s' : Store) (c : Conta) (hpost : post s id p = .ok s' c) :
    ∃ d, p.descricao = some d ∧
      s'.transactions =
        { account_id := id, amount := p.valor, transaction_type := p.tipo,
          details := d } :: s.transactions := by
  obtain ⟨d, v, conta, hd, hlen, hsig, hfind, hchk, hs', hc⟩ :=
    post_ok_inv hpost
  subst hs'
  exact ⟨d, hd, rfl⟩

/-- C6 counterexample: a post with `valor = 0` (and one with
`valor = -5`) on an existing account does not fail with a validation
error — handler.rs:126-148 never checks the sign of `valor`. -/
theorem post_nonpositive_amount_accepted_cx :
    isValidationError
      (post { accounts := [(1, ⟨0, 1000⟩)], transactions := [] } 1
        ⟨0, "c", some "x"⟩) = false ∧
    isValidationError
      (post { accounts := [(1, ⟨0, 1000⟩)], transactions := [] } 1
        ⟨-5, "c", some "x"⟩) = false := by decide

/-- C6 amended: `valor` is never validated — for every amount (positive,
zero, or negative), a payload with a 1-10 byte description and kind
`"c"` or `"d"` passes input validation; the outcome is decided by the
store lookup and the balance invariant alone. -/
theorem post_no_amount_validation (s : Store) (id : Int) (valor : Int)
    (tipo : String) (d : String)
    (hd1 : d.utf8ByteSize ≠ 0) (hd2 : d.utf8ByteSize ≤ 10)
    (htipo : tipo = "c" ∨ tipo = "d") :
    isValidationError (post s id ⟨valor, tipo, some d⟩) = false := by
  have hlen : ¬ (d.utf8ByteSize = 0 ∨ 10 < d.utf8ByteSize) := by
    push_neg
    exact ⟨hd1, by omega⟩
  have hsig : ∃ v, signedAmount tipo valor = some v := by
    rcases htipo with ht | ht <;> subst ht
    · exact ⟨valor, by simp [signedAmount]⟩
    · refine ⟨wrap64 (valor * -1), ?_⟩
      unfold signedAmount
      rw [if_neg (by decide : ("d" : String) ≠ "c"), if_pos rfl]
  obtain ⟨v, hv⟩ := hsig
  exact post_not_validation_of_good s id _ d rfl hlen v hv

/-- Witness for C6's amended claim: a "debit" of -7 passes validation. -/
theorem post_no_amount_validation_witness :
    isValidationError
      (post { accounts := [(1, ⟨0, 1000⟩)], transactions := [] } 1
        ⟨-7, "d", some "x"⟩) = false :=
  post_no_amount_validation _ 1 (-7) "d" "x" (by decide) (by decide)
    (Or.inr rfl)

/-- C7 counterexample: `"ééééééé"` has 7 characters — within the 1-10
character range the claim says must pass — yet the post rejects it,
because handler.rs:139 compares the UTF-8 byte length (14), not the
character count. -/
theorem post_short_multibyte_descricao_rejected_cx :
    1 ≤ ("ééééééé" : String).length ∧ ("ééééééé" : String).length ≤ 10 ∧
    isValidationError
      (post { accounts := [(1, ⟨0, 1000⟩)], transactions := [] } 1
        ⟨5, "c", some "ééééééé"⟩) = true := by decide

/-- C7 amended: the post fails with a description validation error
exactly when `descricao` is missing, empty, or longer than 10 UTF-8
BYTES; a 1-10 byte description passes this check whatever the amount
and kind. -/
theorem post_descricao_byte_check (s : Store) (id : Int) (p : Payload) :
    (post s id p = .validationError "descricao nulo" ∨
     post s id p = .validationError "descricao vazio ou maior que 10") ↔
    (p.descricao = none ∨
     ∃ d, p.descricao = some d ∧
       (d.utf8ByteSize = 0 ∨ 10 < d.utf8ByteSize)) := by
  constructor
  · intro h
    rcases hp : p.descricao with _ | d
    · exact Or.inl rfl
    · by_cases hlen : d.utf8ByteSize = 0 ∨ 10 < d.utf8ByteSize
      · exact Or.inr ⟨d, rfl, hlen⟩
      · exfalso
        rcases hsig : signedAmount p.tipo p.valor with _ | v
        · have he := @post_tipo_error s id p d hp hlen hsig
          rcases h with h | h <;> rw [he] at h <;>
            exact absurd (PostResult.validationError.inj h) (by decide)
        · have he := post_not_validation_of_good s id p d hp hlen v hsig
          rcases h with h | h <;> rw [h] at he <;>
            exact Bool.noConfusion he
  · intro h
    rcases h with h | ⟨d, hd, hlen⟩
    · exact Or.inl (post_descricao_none h)
    · exact Or.inr (post_descricao_bad hd hlen)

/-- C8: a post whose kind is neither `"c"` nor `"d"` always fails with a
validation error, whatever the amount and the description. -/
theorem post_bad_tipo_validation (s : Store) (id : Int) (p : Payload)
    (hc : p.tipo ≠ "c") (hd : p.tipo ≠ "d") :
    isValidationError (post s id p) = true := by
  rcases hp : p.descricao with _ | d
  · rw [post_descricao_none hp]
    rfl
  · by_cases hlen : d.utf8ByteSize = 0 ∨ 10 < d.utf8ByteSize
    · rw [post_descricao_bad hp hlen]
      rfl
    · rw [post_tipo_error hp hlen (signedAmount_none hc hd p.valor)]
      rfl

/-- Witness for C8 at the concrete kind `"x"`. -/
theorem post_bad_tipo_validation_witness :
    isValidationError
      (post { accounts := [(1, ⟨0, 1000⟩)], transactions := [] } 1
        ⟨5, "x", some "test"⟩) = true :=
  post_bad_tipo_validation _ 1 ⟨5, "x", some "test"⟩ (by decide) (by decide)

/-- Witness for C3's amended claim at a concrete debit of 5: the
appended row stores amount 5 and kind `"d"`. -/
theorem post_transaction_row_raw_witness :
    ∃ d, (Payload.mk 5 "d" (some "x")).descricao = some d ∧
      (Store.mk [(1, ⟨-5, 1000⟩)] [⟨1, 5, "d", "x"⟩]).transactions =
        { account_id := (1 : Int), amount := (5 : Int),
          transaction_type := "d", details := d }
          :: (Store.mk [(1, ⟨0, 1000⟩)] []).transactions :=
  post_transaction_row_raw
    { accounts := [(1, ⟨0, 1000⟩)], transactions := [] } 1
    ⟨5, "d", some "x"⟩
    { accounts := [(1, ⟨-5, 1000⟩)], transactions := [⟨1, 5, "d", "x"⟩] }
    ⟨-5, 1000⟩ (by decide)

/-- C9 counterexample: a store failure panics the blocking worker
(every store call in handler.rs:151-176 is `.unwrap()`), reaches the
boundary as a cancelled block result, and is mapped by
handler.rs:181-188 to status 422 — the very same unprocessable status
as an invariant violation (`Err(422)`), not a server-side (5xx)
failure, and with no distinct StoreError anywhere. -/
theorem store_failure_maps_unprocessable_cx :
    surface (.canceled "Thread pool is gone") = 422 ∧
    surface (.canceled "Thread pool is gone") = surface (.err 422) ∧
    surface (.canceled "Thread pool is gone") ≠ 500 := by decide

/-- C9 amended: a store failure aborts the post via a worker panic, but
no distinct StoreError exists — whatever message the cancelled blocking
channel carries (it is never the string `"404"`), the boundary maps it
to 422, the same unprocessable status as an invariant violation. -/
theorem store_failure_surfaces_as_422 (msg : String) (h : msg ≠ "404") :
    surface (.canceled msg) = 422 ∧
    surface (.canceled msg) = surface (.err 422) := by
  have hm : mapErr msg = 422 := by
    unfold mapErr
    split
    next => exact absurd rfl h
    next => rfl
  refine ⟨hm, ?_⟩
  show mapErr msg = surface (.err 422)
  rw [hm]
  rfl

/-- Witness for C9's amended claim at a concrete cancellation message. -/
theorem store_failure_surfaces_as_422_witness :
    surface (.canceled "canceled") = 422 ∧
    surface (.canceled "canceled") = surface (.err 422) :=
  store_failure_surfaces_as_422 "canceled" (by decide)

/-- C10: balance arithmetic is wrapping 64-bit: the debit sign flip is
`valor * -1` reduced into i64, and when the mathematical sum
`balance + valor` of a credit leaves the i64 range, the candidate the
post computes (and commits if the check passes) is the two's-complement
reduction of the sum, which then differs from the exact integer sum. -/
theorem post_balance_wraps (s : Store) (id : Int) (p : Payload)
    (conta : Conta) (hfind : findConta s.accounts id = some conta)
    (htipo : p.tipo = "c")
    (hoverflow : ¬ isI64 (conta.saldo + p.valor)) :
    (∀ s' c, post s id p = .ok s' c →
      c.saldo = wrap64 (conta.saldo + p.valor)) ∧
    wrap64 (conta.saldo + p.valor) ≠ conta.saldo + p.valor ∧
    (∀ v : Int, signedAmount "d" v = some (wrap64 (v * -1))) := by
  refine ⟨?_, wrap64_ne_self hoverflow, ?_⟩
  · intro s' c hpost
    obtain ⟨d, v, conta', hd, hlen, hsig, hfind', hchk, hs', hc⟩ :=
      post_ok_inv hpost
    rw [hfind] at hfind'
    injection hfind' with he
    subst he
    subst hc
    rw [htipo] at hsig
    simp [signedAmount] at hsig
    show newSaldo conta.saldo v = _
    unfold newSaldo
    rw [← hsig]
  · intro v
    unfold signedAmount
    rw [if_neg (by decide : ("d" : String) ≠ "c"), if_pos rfl]

/-- Witness for C10: crediting -1 onto the balance -2^63 (no sign
validation stops it) commits the wrapped balance 2^63 - 1, the
two's-complement reduction of the out-of-range exact sum -2^63 - 1. -/
theorem post_balance_wraps_witness :
    (post { accounts := [(1, ⟨-9223372036854775808, 0⟩)],
            transactions := [] } 1
        ⟨-1, "c", some "x"⟩ =
      .ok { accounts := [(1, ⟨9223372036854775807, 0⟩)],
            transactions := [⟨1, -1, "c", "x"⟩] }
          ⟨9223372036854775807, 0⟩) ∧
    (Conta.mk 9223372036854775807 0).saldo =
      wrap64 (-9223372036854775808 + -1) := by
  constructor
  · decide
  · exact (post_balance_wraps
      { accounts := [(1, ⟨-9223372036854775808, 0⟩)], transactions := [] }
      1 ⟨-1, "c", some "x"⟩ ⟨-9223372036854775808, 0⟩
      (by decide) rfl (by decide)).1
      { accounts := [(1, ⟨9223372036854775807, 0⟩)],
        transactions := [⟨1, -1, "c", "x"⟩] }
      ⟨9223372036854775807, 0⟩ (by decide)

end Maggie
